import Mathlib

/-!
# RTDH frame observer (`src/RTDH/FrameObserver.cpp`)

A shallow embedding of `FrameObserver::ShowFrameInfos`, of the two printing
helpers it calls and of `FrameObserver::FrameReceived`, followed by the
properties of the frame cadence monitor and of the frame callback.

Conventions of the embedding:

* `VmbUint64_t` values are natural numbers below `2 ^ 64`; every unsigned
  operation of the source is written with an explicit `% 2 ^ 64`.
* The clock (`GetTime`) and the members of type `double` are exact rationals;
  the clock reading of a call is an argument of the call.
* An accessor of the frame (`GetFrameID`, `GetReceiveStatus`, ...) is the
  `Option` of the value it delivers: `none` is a result other than
  `VmbErrorSuccess`.
* `std::cout` is the string of everything written so far during the call; the
  stream is in its default formatting state (`std::dec`) when a call begins, and
  every call restores it after `std::hex` and `std::setprecision`.
-/

namespace AVT.VmbAPI.Examples

/-! ## Types declared outside the source file -/

/-- Modelled from the spec: the enumeration `VmbFrameStatusType` is declared in a
header of the camera SDK that is not among the sources. The spec lists the
statuses Complete, Incomplete, TooSmall, Invalid and Unknown; the source names
four enumerators as `case` labels of one `switch` (so they are pairwise
distinct) and sends every remaining value to `default`. The constructor
`other` stands for those remaining values. -/
inductive VmbFrameStatusType where
  | VmbFrameStatusComplete
  | VmbFrameStatusIncomplete
  | VmbFrameStatusTooSmall
  | VmbFrameStatusInvalid
  | other (code : Int)
  deriving DecidableEq

/-- Modelled from the spec: the enumeration `FrameInfos` is declared in
`FrameObserver.h`, which is not among the sources. The spec has two verbosity
modes, OnAnomaly and AlwaysShow; the source calls the second one
`FrameInfos_Show` and compares the configured mode with it only. -/
inductive FrameInfos where
  | FrameInfos_OnAnomaly
  | FrameInfos_Show
  deriving DecidableEq

/-- Modelled from the spec: the class behind `FramePtr` is declared in a header of
the camera SDK that is not among the sources. The spec describes a frame event
as an identifier, a completion status, a width, a height and a pixel-format
code, each of which may be unreadable; the source reads them through the five
accessors below. A field is the outcome of its accessor: `none` is a result
other than `VmbErrorSuccess`. -/
structure Frame where
  GetFrameID : Option Nat
  GetReceiveStatus : Option VmbFrameStatusType
  GetWidth : Option Nat
  GetHeight : Option Nat
  GetPixelFormat : Option Nat

/-- Modelled from the spec: the members `m_FrameID` and `m_FrameTime` have the
template type `ValueWithState` of `FrameObserver.h`, which is not among the
sources; the spec describes them as optional values, invalid until the first
successful event. `IsValid()` is `isSome`, the setter stores `some`, and
`Invalidate()` stores `none`. -/
structure FrameObserver where
  m_eFrameInfos : FrameInfos
  m_FrameID : Option Nat
  m_FrameTime : Option ℚ

/-! ## Machine arithmetic and stream insertion -/

/-- Number of values of a `VmbUint64_t`. -/
def UINT64_MOD : Nat := 2 ^ 64

/-- Unsigned 64-bit addition. -/
def add64 (a b : Nat) : Nat := (a + b) % UINT64_MOD

/-- Unsigned 64-bit subtraction of two values below `2 ^ 64`. -/
def sub64 (a b : Nat) : Nat := (a + UINT64_MOD - b) % UINT64_MOD

/-- Insertion of an unsigned integer while the stream is in `std::dec`. -/
def showDec (n : Nat) : String := toString n

/-- Insertion of an unsigned integer while the stream is in `std::hex`. -/
def showHex (n : Nat) : String := String.mk (Nat.toDigits 16 n)

/-- Nearest integer of a rational, a tie going to the even neighbour. -/
def roundHalfEven (q : ℚ) : Int :=
  let f : Int := ⌊q⌋
  let r : ℚ := q - f
  if r < 1 / 2 then f
  else if 1 / 2 < r then f + 1
  else if f % 2 = 0 then f else f + 1

/-- The number of hundredths that `std::fixed << std::setprecision(2)` prints
for the value `q`. -/
def hundredths (q : ℚ) : Int := roundHalfEven (q * 100)

/-- Two decimal digits of a number below one hundred. -/
def twoDigits (n : Nat) : String := showDec (n / 10 % 10) ++ showDec (n % 10)

/-- Insertion of a `double` under `std::fixed << std::setprecision(2)`. -/
def showFixed2 (q : ℚ) : String :=
  let c : Nat := (hundredths q).natAbs
  (if q < 0 then "-" else "") ++ showDec (c / 100) ++ "." ++ twoDigits (c % 100)

/-! ## Printing helpers -/

/-- The function `PrintFrameInfo`: the text it writes to `std::cout`. -/
def PrintFrameInfo (pFrame : Frame) : String :=
  " Size:"
    ++ (match pFrame.GetWidth with
        | some nWidth => showDec nWidth
        | none => "?")
    ++ "x"
    ++ (match pFrame.GetHeight with
        | some nHeight => showDec nHeight
        | none => "?")
    ++ " Format:"
    ++ (match pFrame.GetPixelFormat with
        | some ePixelFormat => "0x" ++ showHex ePixelFormat
        | none => "?")

/-- The function `PrintFrameStatus`: the text it writes to `std::cout`. -/
def PrintFrameStatus (eFrameStatus : VmbFrameStatusType) : String :=
  match eFrameStatus with
  | .VmbFrameStatusComplete => "Complete"
  | .VmbFrameStatusIncomplete => "Incomplete"
  | .VmbFrameStatusTooSmall => "Too small"
  | .VmbFrameStatusInvalid => "Invalid"
  | .other _ => "unknown frame status"

/-! ## `FrameObserver::ShowFrameInfos` -/

/-- Lines 170-177: the notice written for a count of missing frames. -/
def gapNotice (nFramesMissing : Nat) : String :=
  if 1 = nFramesMissing then "1 missing frame detected\n"
  else showDec nFramesMissing ++ "missing frames detected\n"

/-- What lines 165-179 leave behind: the local `nFramesMissing` and the text
written to `std::cout`. -/
structure GapCheck where
  nFramesMissing : Nat
  out : String

/-- Lines 165-179: the comparison of the identifier just read with the last
one. The local `nFramesMissing` enters with its initial value 0 (line 154). -/
def checkGap (m_FrameID : Option Nat) (nFrameID : Nat) : GapCheck :=
  match m_FrameID with
  | some last =>
    if nFrameID ≠ add64 last 1 then
      let nFramesMissing := sub64 (sub64 nFrameID last) 1
      { nFramesMissing := nFramesMissing, out := gapNotice nFramesMissing }
    else { nFramesMissing := 0, out := "" }
  | none => { nFramesMissing := 0, out := "" }

/-- What lines 183-196 leave behind: the three locals they may assign. -/
structure RateCheck where
  bShowFrameInfos : Bool
  dFPS : ℚ
  bFPSValid : Bool

/-- Lines 183-196: the rate computation against the last time. `dFPS` and
`bFPSValid` enter with their initial values 0.0 and false (lines 152-153),
`bShowFrameInfos` with the value it has at line 183. -/
def checkRate (m_FrameTime : Option ℚ) (nFramesMissing : Nat) (dFrameTime : ℚ)
    (bShowFrameInfos : Bool) : RateCheck :=
  match m_FrameTime with
  | some lastTime =>
    if 0 = nFramesMissing then
      let dTimeDiff := dFrameTime - lastTime
      if dTimeDiff > 0 then
        { bShowFrameInfos := bShowFrameInfos, dFPS := 1 / dTimeDiff, bFPSValid := true }
      else
        { bShowFrameInfos := true, dFPS := 0, bFPSValid := false }
    else { bShowFrameInfos := bShowFrameInfos, dFPS := 0, bFPSValid := false }
  | none => { bShowFrameInfos := bShowFrameInfos, dFPS := 0, bFPSValid := false }

/-- The state of a call at line 206: the locals assigned so far, the two
members, and the text written to `std::cout`. -/
structure IdRead where
  bShowFrameInfos : Bool
  nFrameID : Nat
  bFrameIDValid : Bool
  dFPS : ℚ
  bFPSValid : Bool
  nFramesMissing : Nat
  m_FrameID : Option Nat
  m_FrameTime : Option ℚ
  out : String

/-- Lines 146-205: the test of the configured verbosity, the read of the
identifier and both of its branches; `dFrameTime` is the value that `GetTime()`
returns at line 182. -/
def readFrameID (self : FrameObserver) (pFrame : Frame) (dFrameTime : ℚ) : IdRead :=
  let bShowFrameInfos : Bool :=
    if FrameInfos.FrameInfos_Show = self.m_eFrameInfos then true else false
  match pFrame.GetFrameID with
  | some nFrameID =>
    let gap := checkGap self.m_FrameID nFrameID
    let rate := checkRate self.m_FrameTime gap.nFramesMissing dFrameTime bShowFrameInfos
    { bShowFrameInfos := rate.bShowFrameInfos
      nFrameID := nFrameID
      bFrameIDValid := true
      dFPS := rate.dFPS
      bFPSValid := rate.bFPSValid
      nFramesMissing := gap.nFramesMissing
      m_FrameID := some nFrameID
      m_FrameTime := some dFrameTime
      out := gap.out }
  | none =>
    { bShowFrameInfos := true
      nFrameID := 0
      bFrameIDValid := false
      dFPS := 0
      bFPSValid := false
      nFramesMissing := 0
      m_FrameID := none
      m_FrameTime := none
      out := "" }

/-- What lines 207-220 leave behind: the three locals they may assign. -/
structure StatusRead where
  bShowFrameInfos : Bool
  eFrameStatus : VmbFrameStatusType
  bFrameStatusValid : Bool

/-- Lines 207-220: the read of the receive status. `eFrameStatus` and
`bFrameStatusValid` enter with their initial values (lines 149-150),
`bShowFrameInfos` with the value it has at line 207. -/
def readStatus (pFrame : Frame) (bShowFrameInfos : Bool) : StatusRead :=
  match pFrame.GetReceiveStatus with
  | some eFrameStatus =>
    if VmbFrameStatusType.VmbFrameStatusComplete ≠ eFrameStatus then
      { bShowFrameInfos := true, eFrameStatus := eFrameStatus, bFrameStatusValid := true }
    else
      { bShowFrameInfos := bShowFrameInfos, eFrameStatus := eFrameStatus
        bFrameStatusValid := true }
  | none =>
    { bShowFrameInfos := true, eFrameStatus := .VmbFrameStatusComplete
      bFrameStatusValid := false }

/-- Lines 224-231: the identifier field of the report. -/
def idField (bFrameIDValid : Bool) (nFrameID : Nat) : String :=
  if bFrameIDValid then showDec nFrameID else "?"

/-- Lines 234-241: the status field of the report. -/
def statusField (bFrameStatusValid : Bool) (eFrameStatus : VmbFrameStatusType) : String :=
  if bFrameStatusValid then PrintFrameStatus eFrameStatus else "?"

/-- Lines 245-253: the rate field of the report. -/
def fpsField (bFPSValid : Bool) (dFPS : ℚ) : String :=
  if bFPSValid then showFixed2 dFPS else "?"

/-- The locals of `ShowFrameInfos` at line 221, the two members at the return,
and everything the call has written to `std::cout`. -/
structure Run where
  bShowFrameInfos : Bool
  nFrameID : Nat
  bFrameIDValid : Bool
  eFrameStatus : VmbFrameStatusType
  bFrameStatusValid : Bool
  dFPS : ℚ
  bFPSValid : Bool
  nFramesMissing : Nat
  m_FrameID : Option Nat
  m_FrameTime : Option ℚ
  out : String

/-- Lines 223-255: the text of the detailed report, as a function of the
locals. -/
def reportText (pFrame : Frame) (v : Run) : String :=
  "Frame ID:"
    ++ idField v.bFrameIDValid v.nFrameID
    ++ " Status:"
    ++ statusField v.bFrameStatusValid v.eFrameStatus
    ++ PrintFrameInfo pFrame
    ++ " FPS:"
    ++ fpsField v.bFPSValid v.dFPS
    ++ "\n"

/-- Lines 221-260: what the call writes once `bShowFrameInfos` is settled. -/
def decisionText (pFrame : Frame) (v : Run) : String :=
  if v.bShowFrameInfos then reportText pFrame v else "."

/-- The method `FrameObserver::ShowFrameInfos`, with the reading of the clock
passed as `dFrameTime`. -/
def ShowFrameInfos (self : FrameObserver) (pFrame : Frame) (dFrameTime : ℚ) : Run :=
  let id := readFrameID self pFrame dFrameTime
  let status := readStatus pFrame id.bShowFrameInfos
  let locals : Run :=
    { bShowFrameInfos := status.bShowFrameInfos
      nFrameID := id.nFrameID
      bFrameIDValid := id.bFrameIDValid
      eFrameStatus := status.eFrameStatus
      bFrameStatusValid := status.bFrameStatusValid
      dFPS := id.dFPS
      bFPSValid := id.bFPSValid
      nFramesMissing := id.nFramesMissing
      m_FrameID := id.m_FrameID
      m_FrameTime := id.m_FrameTime
      out := id.out }
  { locals with out := locals.out ++ decisionText pFrame locals }

/-- The observer after a call: the configuration is kept, the two members are
the ones the run ends with. -/
def Run.observer (self : FrameObserver) (v : Run) : FrameObserver :=
  { m_eFrameInfos := self.m_eFrameInfos
    m_FrameID := v.m_FrameID
    m_FrameTime := v.m_FrameTime }

/-- Everything written to `std::cout` before the receive status is read
(lines 146-205): the place of the gap notice. -/
def noticeText (self : FrameObserver) (pFrame : Frame) (dFrameTime : ℚ) : String :=
  (readFrameID self pFrame dFrameTime).out

/-! ## The observer over a stream of frames -/

/-- Modelled from the spec: the constructor (lines 45-58) names neither
`m_FrameID` nor `m_FrameTime`, so both get the default state of
`ValueWithState`, declared in `FrameObserver.h`, which is not among the sources;
the spec has both invalid until the first successful event. -/
def constructed (eFrameInfos : FrameInfos) : FrameObserver :=
  { m_eFrameInfos := eFrameInfos, m_FrameID := none, m_FrameTime := none }

/-- The observer after one call of `ShowFrameInfos` for each frame of a stream,
in order; every frame comes with the clock reading of its call. -/
def runAll (self : FrameObserver) : List (Frame × ℚ) → FrameObserver
  | [] => self
  | (pFrame, dFrameTime) :: rest =>
    runAll ((ShowFrameInfos self pFrame dFrameTime).observer self) rest

/-! ## `FrameObserver::FrameReceived` -/

/-- What `FrameReceived` does to its collaborators: a call of an accessor of the
frame, an insertion into `std::cout`, or the requeue on the camera with the
pointer it passes. -/
inductive Call where
  | GetReceiveStatus
  | cout (text : String)
  | GetImage
  | QueueFrame (pFrame : Option Frame)

/-- Whether the call is `m_pCamera->QueueFrame`. -/
def Call.isQueueFrame : Call → Bool
  | .QueueFrame _ => true
  | _ => false

/-- Whether the call is an accessor of the frame. -/
def Call.isAccessor : Call → Bool
  | .GetReceiveStatus => true
  | .GetImage => true
  | _ => false

/-- The text of an insertion into `std::cout`, if the call is one. -/
def Call.printed : Call → Option String
  | .cout text => some text
  | _ => none

/-- The outcome of `FrameReceived`: the observer afterwards and the calls made,
in order. -/
structure Received where
  observer : FrameObserver
  calls : List Call

/-- The method `FrameObserver::FrameReceived` (lines 263-286). The frame pointer
is `none` when `SP_ISNULL` holds. The out-parameter `pImage` of `GetImage` is
not a member that `ShowFrameInfos` reads and is left out of the observer. -/
def FrameReceived (self : FrameObserver) (pFrame : Option Frame) : Received :=
  let branch : List Call :=
    match pFrame with
    | some frame =>
      Call.GetReceiveStatus ::
        (match frame.GetReceiveStatus with
         | some status =>
           if VmbFrameStatusType.VmbFrameStatusComplete = status then
             [Call.cout "Received a frame! \n", Call.GetImage]
           else [Call.cout "frame incomplete\n"]
         | none => [Call.cout "frame incomplete\n"])
    | none => [Call.cout " frame pointer NULL\n"]
  { observer := self, calls := branch ++ [Call.QueueFrame pFrame] }

/-! ## Arithmetic of the gap count -/

theorem add64_one_of_lt {n : Nat} (h : n + 1 < 2 ^ 64) : add64 n 1 = n + 1 := by
  unfold add64 UINT64_MOD
  exact Nat.mod_eq_of_lt h

theorem gapCount_ne_zero {n m : Nat} (hm : m < 2 ^ 64)
    (h : m ≠ add64 n 1) : sub64 (sub64 m n) 1 ≠ 0 := by
  simp only [add64, sub64, UINT64_MOD] at *
  omega

theorem gapCount_of_le {n m : Nat} (hn : n < 2 ^ 64) (h : m ≤ n) :
    sub64 (sub64 m n) 1 = 2 ^ 64 + m - n - 1 := by
  simp only [sub64, UINT64_MOD]
  omega

/-! ## Rounding to hundredths -/

theorem out_eq_notice_append (self : FrameObserver) (pFrame : Frame) (t : ℚ) :
    (ShowFrameInfos self pFrame t).out
      = noticeText self pFrame t ++ decisionText pFrame (ShowFrameInfos self pFrame t) := by
  simp [ShowFrameInfos, noticeText, decisionText, reportText]

theorem checkGap_nFramesMissing_eq_zero_iff (m_FrameID : Option Nat) {m : Nat}
    (hlt : m < 2 ^ 64) :
    (checkGap m_FrameID m).nFramesMissing = 0 ↔ ∀ n, m_FrameID = some n → m = add64 n 1 := by
  cases m_FrameID with
  | none => simp [checkGap]
  | some n =>
    by_cases hgap : m = add64 n 1
    · simp [checkGap, hgap]
    · simp [checkGap, hgap, gapCount_ne_zero hlt hgap]

theorem readStatus_bShowFrameInfos (pFrame : Frame) (b : Bool) :
    (readStatus pFrame b).bShowFrameInfos = true ↔
      b = true ∨ pFrame.GetReceiveStatus = none
        ∨ ∃ s, pFrame.GetReceiveStatus = some s
            ∧ s ≠ VmbFrameStatusType.VmbFrameStatusComplete := by
  cases hs : pFrame.GetReceiveStatus with
  | none => simp [readStatus, hs]
  | some s =>
    by_cases hc : VmbFrameStatusType.VmbFrameStatusComplete = s
    · subst hc
      simp [readStatus, hs]
    · have hc2 : s ≠ VmbFrameStatusType.VmbFrameStatusComplete := fun h => hc h.symm
      simp [readStatus, hs, hc, hc2]

theorem readFrameID_bShowFrameInfos (self : FrameObserver) (pFrame : Frame) (t2 : ℚ)
    (hidlt : ∀ m, pFrame.GetFrameID = some m → m < 2 ^ 64) :
    (readFrameID self pFrame t2).bShowFrameInfos = true ↔
      self.m_eFrameInfos = FrameInfos.FrameInfos_Show
        ∨ pFrame.GetFrameID = none
        ∨ ∃ m t1, pFrame.GetFrameID = some m ∧ self.m_FrameTime = some t1
            ∧ (∀ n, self.m_FrameID = some n → m = add64 n 1) ∧ t2 - t1 ≤ 0 := by
  have hmode : (FrameInfos.FrameInfos_Show = self.m_eFrameInfos)
      ↔ self.m_eFrameInfos = FrameInfos.FrameInfos_Show := eq_comm
  cases hread : pFrame.GetFrameID with
  | none => simp [readFrameID, hread]
  | some m =>
    have hz := checkGap_nFramesMissing_eq_zero_iff self.m_FrameID (hidlt m hread)
    cases hT : self.m_FrameTime with
    | none => simp [readFrameID, hread, checkRate, hT, hmode]
    | some t1 =>
      by_cases h0 : (checkGap self.m_FrameID m).nFramesMissing = 0
      · have hall := hz.mp h0
        by_cases hlt : t1 < t2
        · have hnle : ¬ t2 ≤ t1 := not_le.mpr hlt
          simp [readFrameID, hread, checkRate, hT, h0, hlt, hnle, hmode]
        · have hle : t2 ≤ t1 := not_lt.mp hlt
          simp only [readFrameID, hread, checkRate, hT, h0, if_true, gt_iff_lt, sub_pos, hlt,
            if_false, true_iff]
          exact Or.inr (Or.inr ⟨m, t1, rfl, rfl, hall, by linarith⟩)
      · have hnall : ¬ ∀ n, self.m_FrameID = some n → m = add64 n 1 := fun h => h0 (hz.mpr h)
        have h0s : ¬ (0 = (checkGap self.m_FrameID m).nFramesMissing) := fun h => h0 h.symm
        simp only [readFrameID, hread, checkRate, hT, h0s, if_false]
        constructor
        · intro h
          left
          by_cases hm : FrameInfos.FrameInfos_Show = self.m_eFrameInfos
          · exact hm.symm
          · simp [hm] at h
        · rintro (h | h | ⟨m2, t, h1, _, h3, _⟩)
          · simp [h]
          · exact absurd h (by simp)
          · have hmm : m = m2 := Option.some.inj h1
            subst hmm
            exact absurd h3 hnall

/-- C1: in a mode other than `FrameInfos_Show`, with a valid last identifier `n`
and a valid last time `t1`, a frame whose identifier reads as `n + 1` at a time
`t2 > t1` and whose status reads as Complete makes the call write the heartbeat
marker "." and nothing else: no gap notice, no detailed report. -/
theorem heartbeat_on_clean_consecutive_frame (self : FrameObserver) (pFrame : Frame)
    (n m : Nat) (t1 t2 : ℚ)
    (hmode : self.m_eFrameInfos ≠ FrameInfos.FrameInfos_Show)
    (hid : self.m_FrameID = some n) (htime : self.m_FrameTime = some t1)
    (hread : pFrame.GetFrameID = some m) (hm : m = n + 1) (hlt : m < 2 ^ 64)
    (ht : t1 < t2)
    (hst : pFrame.GetReceiveStatus = some VmbFrameStatusType.VmbFrameStatusComplete) :
    (ShowFrameInfos self pFrame t2).out = "."
      ∧ (ShowFrameInfos self pFrame t2).bShowFrameInfos = false
      ∧ noticeText self pFrame t2 = ""
      ∧ (ShowFrameInfos self pFrame t2).nFramesMissing = 0 := by
  subst hm
  simp [ShowFrameInfos, noticeText, readStatus, readFrameID, checkGap,
    checkRate, decisionText, hid, htime, hread, hst, Ne.symm hmode, add64_one_of_lt hlt, ht]

/-- Witness of C1: last identifier 7 at time 1, then identifier 8 at time 2. -/
theorem heartbeat_on_clean_consecutive_frame_witness :
    (ShowFrameInfos ⟨FrameInfos.FrameInfos_OnAnomaly, some 7, some 1⟩
        ⟨some 8, some VmbFrameStatusType.VmbFrameStatusComplete, some 640, some 480, none⟩ 2).out
      = "." :=
  (heartbeat_on_clean_consecutive_frame
    ⟨FrameInfos.FrameInfos_OnAnomaly, some 7, some 1⟩
    ⟨some 8, some VmbFrameStatusType.VmbFrameStatusComplete, some 640, some 480, none⟩
    7 8 1 2 (by decide) rfl rfl rfl rfl (by norm_num) (by norm_num) rfl).1

/-- C3: evaluation at last identifier 10 followed by identifier 15. The notice
for four missing frames is the count directly followed by the word "missing",
without a space, so the output does not contain the text "4 missing frames";
the singular notice does have the space. -/
theorem gap_notice_plural_lacks_space :
    noticeText ⟨FrameInfos.FrameInfos_OnAnomaly, some 10, some 1⟩
        ⟨some 15, some VmbFrameStatusType.VmbFrameStatusComplete, some 640, some 480, none⟩ 2
      = "4missing frames detected\n"
    ∧ (ShowFrameInfos ⟨FrameInfos.FrameInfos_OnAnomaly, some 10, some 1⟩
        ⟨some 15, some VmbFrameStatusType.VmbFrameStatusComplete, some 640, some 480, none⟩
        2).out = "4missing frames detected\n."
    ∧ ¬ ("4 missing frames".toList <:+: "4missing frames detected\n.".toList)
    ∧ noticeText ⟨FrameInfos.FrameInfos_OnAnomaly, some 10, some 1⟩
        ⟨some 12, some VmbFrameStatusType.VmbFrameStatusComplete, some 640, some 480, none⟩ 2
      = "1 missing frame detected\n" := by
  refine ⟨by decide, by decide, by decide, by decide⟩

/-- C5, as stated, fails after a gap: last identifier 10 at time 2, then
identifier 15 with a clock reading of 1 (earlier than the last time), status
Complete, mode other than `FrameInfos_Show`. The identifier is read, the last
time is valid and the time difference is negative, yet the call writes the gap
notice and the heartbeat marker, not a report. -/
theorem nonpositive_delta_after_gap_is_heartbeat :
    (⟨some 15, some VmbFrameStatusType.VmbFrameStatusComplete, some 640, some 480, none⟩
        : Frame).GetFrameID = some 15
    ∧ (⟨FrameInfos.FrameInfos_OnAnomaly, some 10, some 2⟩ : FrameObserver).m_FrameTime = some 2
    ∧ (1 : ℚ) ≤ 2
    ∧ (ShowFrameInfos ⟨FrameInfos.FrameInfos_OnAnomaly, some 10, some 2⟩
        ⟨some 15, some VmbFrameStatusType.VmbFrameStatusComplete, some 640, some 480, none⟩
        1).bShowFrameInfos = false
    ∧ (ShowFrameInfos ⟨FrameInfos.FrameInfos_OnAnomaly, some 10, some 2⟩
        ⟨some 15, some VmbFrameStatusType.VmbFrameStatusComplete, some 640, some 480, none⟩
        1).out = "4missing frames detected\n." := by
  refine ⟨rfl, rfl, by norm_num, by decide, by decide⟩

/-- C5, amended: when the identifier is read, the last time `t1` is valid and the
clock reading `t2` satisfies `t2 ≤ t1`, the rate is invalid; and if moreover no
gap is detected (the last identifier is invalid, or the identifier read is the
last one plus one in 64-bit unsigned arithmetic), the call writes the detailed
report, with "?" as its FPS field, in every mode and for every status. -/
theorem nonpositive_delta_without_gap_is_detailed (self : FrameObserver) (pFrame : Frame)
    (m : Nat) (t1 t2 : ℚ)
    (hread : pFrame.GetFrameID = some m) (htime : self.m_FrameTime = some t1)
    (hle : t2 ≤ t1) :
    (ShowFrameInfos self pFrame t2).bFPSValid = false
      ∧ fpsField (ShowFrameInfos self pFrame t2).bFPSValid (ShowFrameInfos self pFrame t2).dFPS
          = "?"
      ∧ ((∀ n, self.m_FrameID = some n → m = add64 n 1) →
          (ShowFrameInfos self pFrame t2).bShowFrameInfos = true
            ∧ (ShowFrameInfos self pFrame t2).out
                = reportText pFrame (ShowFrameInfos self pFrame t2)) := by
  have hnlt : ¬ t1 < t2 := not_lt.mpr hle
  have hvalid : (ShowFrameInfos self pFrame t2).bFPSValid = false := by
    simp only [ShowFrameInfos, readFrameID, hread, htime, checkRate]
    split_ifs with h0 h1 <;> first | rfl | exact absurd (sub_pos.mp h1) hnlt
  refine ⟨hvalid, by simp [fpsField, hvalid], ?_⟩
  intro hnogap
  have hgap0 : (checkGap self.m_FrameID m).nFramesMissing = 0
      ∧ (checkGap self.m_FrameID m).out = "" := by
    cases hl : self.m_FrameID with
    | none => simp [checkGap]
    | some n => simp [checkGap, hnogap n hl]
  have hshow : (ShowFrameInfos self pFrame t2).bShowFrameInfos = true := by
    cases hs : pFrame.GetReceiveStatus <;>
      simp [ShowFrameInfos, readFrameID, readStatus, hread, htime, checkRate, hgap0.1, hnlt, hs]
  refine ⟨hshow, ?_⟩
  rw [out_eq_notice_append]
  simp [noticeText, readFrameID, hread, hgap0.2, decisionText, hshow]

/-- Witness of C5, amended: last identifier 7 at time 2, then identifier 8 at a
clock reading of 2 again. -/
theorem nonpositive_delta_without_gap_is_detailed_witness :
    (ShowFrameInfos ⟨FrameInfos.FrameInfos_OnAnomaly, some 7, some 2⟩
        ⟨some 8, some VmbFrameStatusType.VmbFrameStatusComplete, some 640, some 480, none⟩
        2).bShowFrameInfos = true :=
  ((nonpositive_delta_without_gap_is_detailed
    ⟨FrameInfos.FrameInfos_OnAnomaly, some 7, some 2⟩
    ⟨some 8, some VmbFrameStatusType.VmbFrameStatusComplete, some 640, some 480, none⟩
    8 2 2 rfl rfl (le_refl 2)).2.2
      (fun n hn => by
        have h7 : n = 7 := (Option.some.inj hn).symm
        subst h7
        decide)).1

/-- C6: when the identifier cannot be read, the call writes the detailed report
with "?" as its identifier field and no gap notice, and leaves both members
invalid; on the observer so left, every frame whose identifier is read gets no
gap notice and an invalid rate, whatever its identifier is and whatever the
members held before the failed read. -/
theorem id_read_failure_resynchronises (self : FrameObserver) (pFrame : Frame) (t : ℚ)
    (hfail : pFrame.GetFrameID = none) :
    (ShowFrameInfos self pFrame t).bShowFrameInfos = true
      ∧ idField (ShowFrameInfos self pFrame t).bFrameIDValid
          (ShowFrameInfos self pFrame t).nFrameID = "?"
      ∧ noticeText self pFrame t = ""
      ∧ (ShowFrameInfos self pFrame t).out = reportText pFrame (ShowFrameInfos self pFrame t)
      ∧ (ShowFrameInfos self pFrame t).m_FrameID = none
      ∧ (ShowFrameInfos self pFrame t).m_FrameTime = none
      ∧ ∀ (next : Frame) (m : Nat) (t3 : ℚ), next.GetFrameID = some m →
          noticeText ((ShowFrameInfos self pFrame t).observer self) next t3 = ""
            ∧ (ShowFrameInfos ((ShowFrameInfos self pFrame t).observer self) next t3).nFramesMissing
                = 0
            ∧ (ShowFrameInfos ((ShowFrameInfos self pFrame t).observer self) next t3).bFPSValid
                = false
            ∧ (ShowFrameInfos ((ShowFrameInfos self pFrame t).observer self) next t3).out
                = decisionText next
                    (ShowFrameInfos ((ShowFrameInfos self pFrame t).observer self) next t3) := by
  have hshow : (ShowFrameInfos self pFrame t).bShowFrameInfos = true := by
    cases hs : pFrame.GetReceiveStatus <;>
      simp [ShowFrameInfos, readFrameID, readStatus, hfail, hs]
  have hnotice : noticeText self pFrame t = "" := by
    simp [noticeText, readFrameID, hfail]
  have hobs : (ShowFrameInfos self pFrame t).observer self
      = ⟨self.m_eFrameInfos, none, none⟩ := by
    simp [Run.observer, ShowFrameInfos, readFrameID, hfail]
  refine ⟨hshow, ?_, hnotice, ?_, ?_, ?_, ?_⟩
  · simp [idField, ShowFrameInfos, readFrameID, hfail]
  · rw [out_eq_notice_append, hnotice]
    simp [decisionText, hshow]
  · simp [ShowFrameInfos, readFrameID, hfail]
  · simp [ShowFrameInfos, readFrameID, hfail]
  · intro next m t3 hnext
    rw [hobs]
    have hn2 : noticeText ⟨self.m_eFrameInfos, none, none⟩ next t3 = "" := by
      simp [noticeText, readFrameID, hnext, checkGap]
    refine ⟨hn2, ?_, ?_, ?_⟩
    · simp [ShowFrameInfos, readFrameID, hnext, checkGap]
    · simp [ShowFrameInfos, readFrameID, hnext, checkGap, checkRate]
    · rw [out_eq_notice_append, hn2]
      simp

/-- Witness of C6: a frame without a readable identifier arrives at an observer
whose last identifier is 10. -/
theorem id_read_failure_resynchronises_witness :
    (ShowFrameInfos ⟨FrameInfos.FrameInfos_OnAnomaly, some 10, some 1⟩
        ⟨none, some VmbFrameStatusType.VmbFrameStatusComplete, some 640, some 480, none⟩
        2).m_FrameID = none :=
  (id_read_failure_resynchronises
    ⟨FrameInfos.FrameInfos_OnAnomaly, some 10, some 1⟩
    ⟨none, some VmbFrameStatusType.VmbFrameStatusComplete, some 640, some 480, none⟩
    2 rfl).2.2.2.2.1

/-- C7: when the receive status is read and is not Complete, or cannot be read
at all, the call writes the detailed report, in every mode, for every outcome
of the identifier read and whether or not the rate is valid; the status field
of the report is the text of the status that was read, and "?" when it could
not be read. -/
theorem status_not_complete_is_detailed (self : FrameObserver) (pFrame : Frame) (t : ℚ)
    (hst : pFrame.GetReceiveStatus ≠ some VmbFrameStatusType.VmbFrameStatusComplete) :
    (ShowFrameInfos self pFrame t).bShowFrameInfos = true
      ∧ (ShowFrameInfos self pFrame t).out
          = noticeText self pFrame t ++ reportText pFrame (ShowFrameInfos self pFrame t)
      ∧ statusField (ShowFrameInfos self pFrame t).bFrameStatusValid
            (ShowFrameInfos self pFrame t).eFrameStatus
          = (match pFrame.GetReceiveStatus with
             | some eFrameStatus => PrintFrameStatus eFrameStatus
             | none => "?") := by
  have hshow : (ShowFrameInfos self pFrame t).bShowFrameInfos = true := by
    cases hs : pFrame.GetReceiveStatus with
    | none => simp [ShowFrameInfos, readStatus, hs]
    | some s =>
      have hne : ¬ VmbFrameStatusType.VmbFrameStatusComplete = s := by
        intro h
        exact hst (by rw [hs, h])
      simp [ShowFrameInfos, readStatus, hs, hne]
  refine ⟨hshow, ?_, ?_⟩
  · rw [out_eq_notice_append]
    simp [decisionText, hshow]
  · cases hs : pFrame.GetReceiveStatus with
    | none => simp [ShowFrameInfos, readStatus, hs, statusField]
    | some s =>
      by_cases hc : VmbFrameStatusType.VmbFrameStatusComplete = s <;>
        simp [ShowFrameInfos, readStatus, hs, statusField, hc]

/-- Witness of C7: a frame whose status reads as Incomplete, consecutive and on
time, so that the rate is valid. -/
theorem status_not_complete_is_detailed_witness :
    (ShowFrameInfos ⟨FrameInfos.FrameInfos_OnAnomaly, some 7, some 1⟩
        ⟨some 8, some VmbFrameStatusType.VmbFrameStatusIncomplete, some 640, some 480, none⟩
        2).bShowFrameInfos = true :=
  (status_not_complete_is_detailed
    ⟨FrameInfos.FrameInfos_OnAnomaly, some 7, some 1⟩
    ⟨some 8, some VmbFrameStatusType.VmbFrameStatusIncomplete, some 640, some 480, none⟩
    2 (by decide)).1

/-- C8: for identifiers that fit 64 bits, the call writes the detailed report
exactly when the mode is `FrameInfos_Show`, or the identifier cannot be read,
or the status cannot be read, or the status is read and is not Complete, or the
identifier is read while the last time is valid, no gap is detected and the
clock reading minus the last time is at most zero; otherwise it writes the
heartbeat marker. Whether width, height and pixel format can be read has no
influence on the choice. -/
theorem detailed_iff_force_condition (self : FrameObserver) (pFrame : Frame) (t2 : ℚ)
    (hidlt : ∀ m, pFrame.GetFrameID = some m → m < 2 ^ 64) :
    ((ShowFrameInfos self pFrame t2).bShowFrameInfos = true ↔
        self.m_eFrameInfos = FrameInfos.FrameInfos_Show
          ∨ pFrame.GetFrameID = none
          ∨ pFrame.GetReceiveStatus = none
          ∨ (∃ s, pFrame.GetReceiveStatus = some s
                ∧ s ≠ VmbFrameStatusType.VmbFrameStatusComplete)
          ∨ (∃ m t1, pFrame.GetFrameID = some m ∧ self.m_FrameTime = some t1
                ∧ (∀ n, self.m_FrameID = some n → m = add64 n 1) ∧ t2 - t1 ≤ 0))
      ∧ ((ShowFrameInfos self pFrame t2).bShowFrameInfos = true →
          (ShowFrameInfos self pFrame t2).out
            = noticeText self pFrame t2 ++ reportText pFrame (ShowFrameInfos self pFrame t2))
      ∧ ((ShowFrameInfos self pFrame t2).bShowFrameInfos = false →
          (ShowFrameInfos self pFrame t2).out = noticeText self pFrame t2 ++ ".")
      ∧ ∀ w h p : Option Nat,
          (ShowFrameInfos self
              ⟨pFrame.GetFrameID, pFrame.GetReceiveStatus, w, h, p⟩ t2).bShowFrameInfos
            = (ShowFrameInfos self pFrame t2).bShowFrameInfos := by
  refine ⟨?_, ?_, ?_, ?_⟩
  · have h1 : (ShowFrameInfos self pFrame t2).bShowFrameInfos
        = (readStatus pFrame (readFrameID self pFrame t2).bShowFrameInfos).bShowFrameInfos := rfl
    rw [h1, readStatus_bShowFrameInfos, readFrameID_bShowFrameInfos self pFrame t2 hidlt]
    constructor
    · rintro ((h | h | h) | h | h)
      · exact Or.inl h
      · exact Or.inr (Or.inl h)
      · exact Or.inr (Or.inr (Or.inr (Or.inr h)))
      · exact Or.inr (Or.inr (Or.inl h))
      · exact Or.inr (Or.inr (Or.inr (Or.inl h)))
    · rintro (h | h | h | h | h)
      · exact Or.inl (Or.inl h)
      · exact Or.inl (Or.inr (Or.inl h))
      · exact Or.inr (Or.inl h)
      · exact Or.inr (Or.inr h)
      · exact Or.inl (Or.inr (Or.inr h))
  · intro hshow
    rw [out_eq_notice_append]
    simp [decisionText, hshow]
  · intro hshow
    rw [out_eq_notice_append]
    simp [decisionText, hshow]
  · intro w h p
    simp [ShowFrameInfos, readFrameID, readStatus]

/-- Witness of C8: identifiers 7 then 8, both below `2 ^ 64`; the frame without
readable width, height and format is treated as the one with all three. -/
theorem detailed_iff_force_condition_witness :
    (ShowFrameInfos ⟨FrameInfos.FrameInfos_OnAnomaly, some 7, some 1⟩
        ⟨some 8, some VmbFrameStatusType.VmbFrameStatusComplete, some 640, some 480, some 17301505⟩
        2).bShowFrameInfos
      = (ShowFrameInfos ⟨FrameInfos.FrameInfos_OnAnomaly, some 7, some 1⟩
          ⟨some 8, some VmbFrameStatusType.VmbFrameStatusComplete, none, none, none⟩
          2).bShowFrameInfos :=
  (detailed_iff_force_condition
    ⟨FrameInfos.FrameInfos_OnAnomaly, some 7, some 1⟩
    ⟨some 8, some VmbFrameStatusType.VmbFrameStatusComplete, none, none, none⟩
    2 (fun m hm => by
        have h8 : m = 8 := (Option.some.inj hm).symm
        subst h8
        norm_num)).2.2.2 (some 640) (some 480) (some 17301505)

/-- C9: a detected gap alone does not force the report. In a mode other than
`FrameInfos_Show`, with a valid last identifier `n`, a frame whose identifier
reads as `m`, different from `n + 1` in 64-bit unsigned arithmetic, and whose
status reads as Complete, makes the call write the gap notice followed by the
heartbeat marker, whatever the last time and the clock reading are. -/
theorem gap_alone_is_heartbeat (self : FrameObserver) (pFrame : Frame)
    (n m : Nat) (t2 : ℚ)
    (hmode : self.m_eFrameInfos ≠ FrameInfos.FrameInfos_Show)
    (hid : self.m_FrameID = some n)
    (hread : pFrame.GetFrameID = some m) (hlt : m < 2 ^ 64)
    (hgap : m ≠ add64 n 1)
    (hst : pFrame.GetReceiveStatus = some VmbFrameStatusType.VmbFrameStatusComplete) :
    (ShowFrameInfos self pFrame t2).bShowFrameInfos = false
      ∧ (ShowFrameInfos self pFrame t2).out = gapNotice (sub64 (sub64 m n) 1) ++ "." := by
  have hk : sub64 (sub64 m n) 1 ≠ 0 := gapCount_ne_zero hlt hgap
  have hk0 : ¬ (0 = sub64 (sub64 m n) 1) := fun h => hk h.symm
  have hshow : (ShowFrameInfos self pFrame t2).bShowFrameInfos = false := by
    cases hT : self.m_FrameTime <;>
      simp [ShowFrameInfos, readFrameID, readStatus, checkGap, checkRate, hid, hread, hgap,
        hst, hT, hk0, hk, Ne.symm hmode]
  refine ⟨hshow, ?_⟩
  rw [out_eq_notice_append]
  simp [noticeText, readFrameID, checkGap, hid, hread, hgap, decisionText, hshow]

/-- Witness of C9: last identifier 10 at time 2, then identifier 15 at a clock
reading of 1. -/
theorem gap_alone_is_heartbeat_witness :
    (ShowFrameInfos ⟨FrameInfos.FrameInfos_OnAnomaly, some 10, some 2⟩
        ⟨some 15, some VmbFrameStatusType.VmbFrameStatusComplete, some 640, some 480, none⟩
        1).bShowFrameInfos = false :=
  (gap_alone_is_heartbeat
    ⟨FrameInfos.FrameInfos_OnAnomaly, some 10, some 2⟩
    ⟨some 15, some VmbFrameStatusType.VmbFrameStatusComplete, some 640, some 480, none⟩
    10 15 1 (by decide) rfl rfl (by norm_num) (by decide) rfl).1

theorem gapNotice_ne_empty (k : Nat) : gapNotice k ≠ "" := by
  intro h
  have hlen := congrArg String.length h
  unfold gapNotice at hlen
  split_ifs at hlen
  · exact absurd hlen (by decide)
  · simp only [String.length_append] at hlen
    have h1 : "missing frames detected\n".length = 24 := by decide
    have h2 : "".length = 0 := by decide
    omega

/-- C11: after every call of `ShowFrameInfos`, from any prior state, `m_FrameID`
is valid exactly when `m_FrameTime` is valid, and both are valid exactly when
the identifier of this call was read; a valid `m_FrameTime` is the clock reading
of this call. Hence after any stream of frames, starting from the constructed
observer, the two members are valid or invalid together. -/
theorem members_valid_as_a_pair (self : FrameObserver) (pFrame : Frame) (t : ℚ)
    (eFrameInfos : FrameInfos) (stream : List (Frame × ℚ)) :
    ((ShowFrameInfos self pFrame t).m_FrameID.isSome
        = (ShowFrameInfos self pFrame t).m_FrameTime.isSome)
      ∧ ((ShowFrameInfos self pFrame t).m_FrameID.isSome = pFrame.GetFrameID.isSome)
      ∧ ((ShowFrameInfos self pFrame t).m_FrameTime.isSome = pFrame.GetFrameID.isSome)
      ∧ (pFrame.GetFrameID = none → (ShowFrameInfos self pFrame t).m_FrameTime = none)
      ∧ (∀ x, (ShowFrameInfos self pFrame t).m_FrameTime = some x →
          x = t ∧ pFrame.GetFrameID.isSome = true)
      ∧ ((runAll (constructed eFrameInfos) stream).m_FrameID.isSome
          = (runAll (constructed eFrameInfos) stream).m_FrameTime.isSome) := by
  have hcall : ∀ (o : FrameObserver) (f : Frame) (c : ℚ),
      (ShowFrameInfos o f c).m_FrameID.isSome = (ShowFrameInfos o f c).m_FrameTime.isSome := by
    intro o f c
    cases hread : f.GetFrameID <;> simp [ShowFrameInfos, readFrameID, hread]
  have hrun : ∀ (l : List (Frame × ℚ)) (o : FrameObserver),
      o.m_FrameID.isSome = o.m_FrameTime.isSome →
        (runAll o l).m_FrameID.isSome = (runAll o l).m_FrameTime.isSome := by
    intro l
    induction l with
    | nil => intro o ho; exact ho
    | cons e rest ih =>
      intro o _
      obtain ⟨f, c⟩ := e
      exact ih _ (hcall o f c)
  refine ⟨hcall self pFrame t, ?_, ?_, ?_, ?_, hrun stream _ rfl⟩
  · cases hread : pFrame.GetFrameID <;> simp [ShowFrameInfos, readFrameID, hread]
  · cases hread : pFrame.GetFrameID <;> simp [ShowFrameInfos, readFrameID, hread]
  · intro hread
    simp [ShowFrameInfos, readFrameID, hread]
  · intro x
    cases hread : pFrame.GetFrameID with
    | none => simp [ShowFrameInfos, readFrameID, hread]
    | some m =>
      simp only [ShowFrameInfos, readFrameID, hread, Option.some.injEq, Option.isSome_some,
        and_true]
      exact fun h => h.symm

/-- C12: whatever the frame pointer and the outcome of `GetReceiveStatus` are,
`FrameReceived` calls `QueueFrame` exactly once, with the pointer it was given
and as its last call; for a null pointer it calls no accessor of the frame
before that: it writes its message and requeues. -/
theorem requeue_exactly_once_and_last (self : FrameObserver) (pFrame : Option Frame) :
    (FrameReceived self pFrame).calls.countP Call.isQueueFrame = 1
      ∧ (∃ before : List Call,
          (FrameReceived self pFrame).calls = before ++ [Call.QueueFrame pFrame]
            ∧ before.all (fun c => !c.isQueueFrame) = true)
      ∧ (FrameReceived self none).calls.any Call.isAccessor = false
      ∧ (FrameReceived self none).calls
          = [Call.cout " frame pointer NULL\n", Call.QueueFrame none] := by
  refine ⟨?_, ?_, by simp [FrameReceived, Call.isAccessor], by simp [FrameReceived]⟩
  · cases pFrame with
    | none => simp [FrameReceived, Call.isQueueFrame]
    | some frame =>
      cases hs : frame.GetReceiveStatus with
      | none => simp [FrameReceived, hs, Call.isQueueFrame]
      | some status =>
        by_cases hc : VmbFrameStatusType.VmbFrameStatusComplete = status <;>
          simp [FrameReceived, hs, hc, Call.isQueueFrame]
  · cases pFrame with
    | none => exact ⟨_, rfl, by simp [Call.isQueueFrame]⟩
    | some frame =>
      refine ⟨_, rfl, ?_⟩
      cases hs : frame.GetReceiveStatus with
      | none => simp [hs, Call.isQueueFrame]
      | some status =>
        by_cases hc : VmbFrameStatusType.VmbFrameStatusComplete = status <;>
          simp [hs, hc, Call.isQueueFrame]

/-- C15: for identifiers that fit 64 bits, the call writes a gap notice exactly
when the identifier is read, the last identifier is valid and the identifier
differs from the last one plus one in 64-bit unsigned arithmetic; it is then the
one notice for the count `id - last - 1` in 64-bit unsigned arithmetic, that
count is at least 1, and `nFramesMissing` is 0 exactly when no gap is
detected. -/
theorem gap_notice_iff_gap (self : FrameObserver) (pFrame : Frame) (t : ℚ)
    (hidlt : ∀ m, pFrame.GetFrameID = some m → m < 2 ^ 64) :
    (noticeText self pFrame t ≠ "" ↔
        ∃ m n, pFrame.GetFrameID = some m ∧ self.m_FrameID = some n ∧ m ≠ add64 n 1)
      ∧ (∀ m n, pFrame.GetFrameID = some m → self.m_FrameID = some n → m ≠ add64 n 1 →
          noticeText self pFrame t = gapNotice (sub64 (sub64 m n) 1)
            ∧ (ShowFrameInfos self pFrame t).nFramesMissing = sub64 (sub64 m n) 1
            ∧ 1 ≤ sub64 (sub64 m n) 1)
      ∧ ((ShowFrameInfos self pFrame t).nFramesMissing = 0 ↔
          ¬ ∃ m n, pFrame.GetFrameID = some m ∧ self.m_FrameID = some n ∧ m ≠ add64 n 1) := by
  have hgapcase : ∀ m n, pFrame.GetFrameID = some m → self.m_FrameID = some n →
      m ≠ add64 n 1 →
        noticeText self pFrame t = gapNotice (sub64 (sub64 m n) 1)
          ∧ (ShowFrameInfos self pFrame t).nFramesMissing = sub64 (sub64 m n) 1
          ∧ 1 ≤ sub64 (sub64 m n) 1 := by
    intro m n hread hlast hgap
    refine ⟨?_, ?_, Nat.one_le_iff_ne_zero.mpr (gapCount_ne_zero (hidlt m hread) hgap)⟩
    · simp [noticeText, readFrameID, checkGap, hread, hlast, hgap]
    · simp [ShowFrameInfos, readFrameID, checkGap, hread, hlast, hgap]
  have hnogap : (¬ ∃ m n, pFrame.GetFrameID = some m ∧ self.m_FrameID = some n
      ∧ m ≠ add64 n 1) →
        noticeText self pFrame t = "" ∧ (ShowFrameInfos self pFrame t).nFramesMissing = 0 := by
    intro hno
    cases hread : pFrame.GetFrameID with
    | none => simp [noticeText, ShowFrameInfos, readFrameID, hread]
    | some m =>
      cases hlast : self.m_FrameID with
      | none => simp [noticeText, ShowFrameInfos, readFrameID, checkGap, hread, hlast]
      | some n =>
        have hm : m = add64 n 1 := by
          by_contra hne
          exact hno ⟨m, n, hread, hlast, hne⟩
        simp [noticeText, ShowFrameInfos, readFrameID, checkGap, hread, hlast, hm]
  refine ⟨?_, hgapcase, ?_⟩
  · constructor
    · intro hne
      by_contra hno
      exact hne (hnogap hno).1
    · rintro ⟨m, n, hread, hlast, hgap⟩
      rw [(hgapcase m n hread hlast hgap).1]
      exact gapNotice_ne_empty _
  · constructor
    · rintro h0 ⟨m, n, hread, hlast, hgap⟩
      have h1 := (hgapcase m n hread hlast hgap).2
      omega
    · intro hno
      exact (hnogap hno).2

/-- Witness of C15: last identifier `2 ^ 64 - 1`, then identifier 5: the
subtraction wraps and five frames are counted as missing. -/
theorem gap_notice_iff_gap_witness :
    (ShowFrameInfos ⟨FrameInfos.FrameInfos_OnAnomaly, some 18446744073709551615, some 1⟩
        ⟨some 5, some VmbFrameStatusType.VmbFrameStatusComplete, none, none, none⟩
        2).nFramesMissing = 5 := by
  have h := ((gap_notice_iff_gap
    ⟨FrameInfos.FrameInfos_OnAnomaly, some 18446744073709551615, some 1⟩
    ⟨some 5, some VmbFrameStatusType.VmbFrameStatusComplete, none, none, none⟩ 2
    (fun m hm => by
      have h5 : m = 5 := (Option.some.inj hm).symm
      subst h5
      norm_num)).2.1 5 18446744073709551615 rfl rfl (by decide)).2.1
  rw [h]
  decide

/-- C16: when the identifier is read as `m` at the clock reading `t`, the members
after the call are `m` and `t`, both valid, whatever the members were before,
whatever the mode is and whatever the other accessors of the frame deliver. -/
theorem members_after_successful_id_read (self : FrameObserver) (pFrame : Frame)
    (m : Nat) (t : ℚ) (hread : pFrame.GetFrameID = some m) :
    (ShowFrameInfos self pFrame t).m_FrameID = some m
      ∧ (ShowFrameInfos self pFrame t).m_FrameTime = some t
      ∧ (ShowFrameInfos self pFrame t).observer self
          = { m_eFrameInfos := self.m_eFrameInfos, m_FrameID := some m, m_FrameTime := some t }
      ∧ ∀ (mode : FrameInfos) (lastID : Option Nat) (lastTime : Option ℚ)
          (status : Option VmbFrameStatusType) (w h p : Option Nat),
          (ShowFrameInfos ⟨mode, lastID, lastTime⟩ ⟨some m, status, w, h, p⟩ t).m_FrameID
              = some m
            ∧ (ShowFrameInfos ⟨mode, lastID, lastTime⟩ ⟨some m, status, w, h, p⟩ t).m_FrameTime
              = some t := by
  refine ⟨?_, ?_, ?_, ?_⟩
  · simp [ShowFrameInfos, readFrameID, hread]
  · simp [ShowFrameInfos, readFrameID, hread]
  · simp [Run.observer, ShowFrameInfos, readFrameID, hread]
  · intro mode lastID lastTime status w h p
    simp [ShowFrameInfos, readFrameID]

/-- Witness of C16: identifier 3 arrives after identifier 10, at a clock reading
earlier than the last time. -/
theorem members_after_successful_id_read_witness :
    (ShowFrameInfos ⟨FrameInfos.FrameInfos_OnAnomaly, some 10, some 2⟩
        ⟨some 3, none, none, none, none⟩ 1).m_FrameID = some 3 :=
  (members_after_successful_id_read
    ⟨FrameInfos.FrameInfos_OnAnomaly, some 10, some 2⟩
    ⟨some 3, none, none, none, none⟩ 3 1 rfl).1

/-- C17, as stated, fails at one pair of identifiers: last identifier
`2 ^ 64 - 1`, then identifier 0, which is not above the last one. The last
identifier plus one wraps to 0, so the call sees a consecutive frame: no notice,
no missing frame, a valid rate, and the heartbeat marker as the whole output. -/
theorem restart_after_last_value_is_consecutive :
    (0 : Nat) ≤ 18446744073709551615
    ∧ 18446744073709551615 < 2 ^ 64
    ∧ noticeText ⟨FrameInfos.FrameInfos_OnAnomaly, some 18446744073709551615, some 1⟩
        ⟨some 0, some VmbFrameStatusType.VmbFrameStatusComplete, none, none, none⟩ 2 = ""
    ∧ (ShowFrameInfos ⟨FrameInfos.FrameInfos_OnAnomaly, some 18446744073709551615, some 1⟩
        ⟨some 0, some VmbFrameStatusType.VmbFrameStatusComplete, none, none, none⟩
        2).nFramesMissing = 0
    ∧ (ShowFrameInfos ⟨FrameInfos.FrameInfos_OnAnomaly, some 18446744073709551615, some 1⟩
        ⟨some 0, some VmbFrameStatusType.VmbFrameStatusComplete, none, none, none⟩
        2).bFPSValid = true
    ∧ (ShowFrameInfos ⟨FrameInfos.FrameInfos_OnAnomaly, some 18446744073709551615, some 1⟩
        ⟨some 0, some VmbFrameStatusType.VmbFrameStatusComplete, none, none, none⟩
        2).out = "." := by
  have hnext : (0 : Nat) = add64 18446744073709551615 1 := by decide
  refine ⟨by norm_num, by norm_num, ?_, ?_, ?_, ?_⟩
  · decide
  · decide
  · simp [ShowFrameInfos, readFrameID, checkGap, checkRate, ← hnext]
  · simp [ShowFrameInfos, readFrameID, readStatus, checkGap, checkRate, ← hnext, decisionText]

/-- C17, amended: with a valid last identifier `n` below `2 ^ 64` and a frame
whose identifier reads as `m ≤ n`, other than `m = 0` right after
`n = 2 ^ 64 - 1`, the call writes the gap notice for the count
`2 ^ 64 + m - n - 1` (`2 ^ 64 - 1` for a repeated identifier, `2 ^ 64 - n - 1`
for a restart at 0), leaves the rate invalid and stores `m` as the last
identifier. -/
theorem backward_id_is_huge_gap (self : FrameObserver) (pFrame : Frame)
    (n m : Nat) (t : ℚ)
    (hid : self.m_FrameID = some n) (hn : n < 2 ^ 64)
    (hread : pFrame.GetFrameID = some m) (hle : m ≤ n)
    (hnowrap : ¬ (n = 2 ^ 64 - 1 ∧ m = 0)) :
    noticeText self pFrame t = gapNotice (2 ^ 64 + m - n - 1)
      ∧ (ShowFrameInfos self pFrame t).nFramesMissing = 2 ^ 64 + m - n - 1
      ∧ 1 ≤ 2 ^ 64 + m - n - 1
      ∧ (m = n → 2 ^ 64 + m - n - 1 = 2 ^ 64 - 1)
      ∧ (m = 0 → 2 ^ 64 + m - n - 1 = 2 ^ 64 - n - 1)
      ∧ (ShowFrameInfos self pFrame t).bFPSValid = false
      ∧ (ShowFrameInfos self pFrame t).m_FrameID = some m := by
  have hm : m < 2 ^ 64 := lt_of_le_of_lt hle hn
  have hgap : m ≠ add64 n 1 := by
    simp only [add64, UINT64_MOD]
    omega
  have hcount : sub64 (sub64 m n) 1 = 2 ^ 64 + m - n - 1 := gapCount_of_le hn hle
  have hk : sub64 (sub64 m n) 1 ≠ 0 := gapCount_ne_zero hm hgap
  have hk0 : ¬ (0 = sub64 (sub64 m n) 1) := fun h => hk h.symm
  refine ⟨?_, ?_, ?_, ?_, ?_, ?_, ?_⟩
  · rw [← hcount]
    simp [noticeText, readFrameID, checkGap, hid, hread, hgap]
  · rw [← hcount]
    simp [ShowFrameInfos, readFrameID, checkGap, hid, hread, hgap]
  · rw [← hcount]
    exact Nat.one_le_iff_ne_zero.mpr hk
  · intro h
    omega
  · intro h
    omega
  · cases hT : self.m_FrameTime <;>
      simp [ShowFrameInfos, readFrameID, checkGap, checkRate, hid, hread, hgap, hT, hk0, hk]
  · simp [ShowFrameInfos, readFrameID, hread]

/-- Witness of C17, amended: identifier 10 arrives twice. -/
theorem backward_id_is_huge_gap_witness :
    (ShowFrameInfos ⟨FrameInfos.FrameInfos_OnAnomaly, some 10, some 1⟩
        ⟨some 10, some VmbFrameStatusType.VmbFrameStatusComplete, none, none, none⟩
        2).nFramesMissing = 2 ^ 64 + 10 - 10 - 1 :=
  (backward_id_is_huge_gap
    ⟨FrameInfos.FrameInfos_OnAnomaly, some 10, some 1⟩
    ⟨some 10, some VmbFrameStatusType.VmbFrameStatusComplete, none, none, none⟩
    10 10 2 rfl (by norm_num) rfl (le_refl 10) (by norm_num)).2.1

/-- C18: when both members are invalid and the identifier is read, the call
writes no gap notice, counts no missing frame and leaves the rate invalid; in a
mode other than `FrameInfos_Show` and with status Complete the whole output is
the heartbeat marker. -/
theorem first_frame_is_heartbeat (self : FrameObserver) (pFrame : Frame) (m : Nat) (t : ℚ)
    (hid : self.m_FrameID = none) (htime : self.m_FrameTime = none)
    (hread : pFrame.GetFrameID = some m) :
    noticeText self pFrame t = ""
      ∧ (ShowFrameInfos self pFrame t).nFramesMissing = 0
      ∧ (ShowFrameInfos self pFrame t).bFPSValid = false
      ∧ (self.m_eFrameInfos ≠ FrameInfos.FrameInfos_Show →
          pFrame.GetReceiveStatus = some VmbFrameStatusType.VmbFrameStatusComplete →
            (ShowFrameInfos self pFrame t).bShowFrameInfos = false
              ∧ (ShowFrameInfos self pFrame t).out = ".") := by
  have hnotice : noticeText self pFrame t = "" := by
    simp [noticeText, readFrameID, checkGap, hid, hread]
  refine ⟨hnotice, ?_, ?_, ?_⟩
  · simp [ShowFrameInfos, readFrameID, checkGap, hid, hread]
  · simp [ShowFrameInfos, readFrameID, checkGap, checkRate, hid, htime, hread]
  · intro hmode hst
    have hshow : (ShowFrameInfos self pFrame t).bShowFrameInfos = false := by
      simp [ShowFrameInfos, readFrameID, readStatus, checkGap, checkRate, hid, htime, hread,
        hst, Ne.symm hmode]
    refine ⟨hshow, ?_⟩
    rw [out_eq_notice_append, hnotice]
    simp [decisionText, hshow]

/-- Witness of C18: identifier 1000 arrives at the constructed observer. -/
theorem first_frame_is_heartbeat_witness :
    (ShowFrameInfos (constructed FrameInfos.FrameInfos_OnAnomaly)
        ⟨some 1000, some VmbFrameStatusType.VmbFrameStatusComplete, none, none, none⟩
        5).out = "." :=
  ((first_frame_is_heartbeat (constructed FrameInfos.FrameInfos_OnAnomaly)
    ⟨some 1000, some VmbFrameStatusType.VmbFrameStatusComplete, none, none, none⟩
    1000 5 rfl rfl rfl).2.2.2 (by decide) rfl).2

/-- C19: `FrameReceived` calls `GetImage` exactly when the pointer is not null and
the status is read as Complete; it writes exactly one message, "Received a
frame! " in that case, "frame incomplete" for any other frame and " frame
pointer NULL" for a null pointer, and nothing that `ShowFrameInfos` writes; it
leaves the observer, with `m_FrameID` and `m_FrameTime`, as it was. -/
theorem FrameReceived_branches (self : FrameObserver) (pFrame : Option Frame) :
    (Call.GetImage ∈ (FrameReceived self pFrame).calls ↔
        ∃ frame, pFrame = some frame
          ∧ frame.GetReceiveStatus = some VmbFrameStatusType.VmbFrameStatusComplete)
      ∧ (FrameReceived self pFrame).calls.filterMap Call.printed
          = [match pFrame with
             | some frame =>
               if frame.GetReceiveStatus = some VmbFrameStatusType.VmbFrameStatusComplete
               then "Received a frame! \n" else "frame incomplete\n"
             | none => " frame pointer NULL\n"]
      ∧ (FrameReceived self pFrame).observer = self
      ∧ (FrameReceived self pFrame).observer.m_FrameID = self.m_FrameID
      ∧ (FrameReceived self pFrame).observer.m_FrameTime = self.m_FrameTime := by
  refine ⟨?_, ?_, rfl, rfl, rfl⟩
  · cases pFrame with
    | none => simp [FrameReceived]
    | some frame =>
      cases hs : frame.GetReceiveStatus with
      | none => simp [FrameReceived, hs]
      | some status =>
        by_cases hc : VmbFrameStatusType.VmbFrameStatusComplete = status
        · subst hc
          simp [FrameReceived, hs]
        · have hc2 : ¬ status = VmbFrameStatusType.VmbFrameStatusComplete :=
            fun h => hc h.symm
          simp [FrameReceived, hs, hc, hc2]
  · cases pFrame with
    | none => simp [FrameReceived, Call.printed]
    | some frame =>
      cases hs : frame.GetReceiveStatus with
      | none => simp [FrameReceived, hs, Call.printed]
      | some status =>
        by_cases hc : VmbFrameStatusType.VmbFrameStatusComplete = status
        · subst hc
          simp [FrameReceived, hs, Call.printed]
        · have hc2 : ¬ status = VmbFrameStatusType.VmbFrameStatusComplete :=
            fun h => hc h.symm
          simp [FrameReceived, hs, hc, hc2, Call.printed]

/-- C20: `PrintFrameStatus` writes "Complete", "Incomplete", "Too small" and
"Invalid" for the four named statuses and "unknown frame status" for every other
value; the five texts are pairwise distinct, so two statuses with the same text
are the same named status or are both outside the four. -/
theorem PrintFrameStatus_texts (a b : VmbFrameStatusType) (code : Int) :
    PrintFrameStatus VmbFrameStatusType.VmbFrameStatusComplete = "Complete"
      ∧ PrintFrameStatus VmbFrameStatusType.VmbFrameStatusIncomplete = "Incomplete"
      ∧ PrintFrameStatus VmbFrameStatusType.VmbFrameStatusTooSmall = "Too small"
      ∧ PrintFrameStatus VmbFrameStatusType.VmbFrameStatusInvalid = "Invalid"
      ∧ PrintFrameStatus (VmbFrameStatusType.other code) = "unknown frame status"
      ∧ ["Complete", "Incomplete", "Too small", "Invalid", "unknown frame status"].Nodup
      ∧ (PrintFrameStatus a = PrintFrameStatus b →
          a = b ∨ ∃ c d, a = VmbFrameStatusType.other c ∧ b = VmbFrameStatusType.other d) := by
  refine ⟨rfl, rfl, rfl, rfl, rfl, by decide, ?_⟩
  cases a <;> cases b <;> simp [PrintFrameStatus]

end AVT.VmbAPI.Examples
